import Mathlib

/-!
Shallow embedding of the event-processing core of the PCF50633 PMU driver
(drivers/i2c/chips/pcf50633.c) and proofs about it.

Modelling conventions:
  * Registers are 8-bit; the register file is `regs : Nat → Nat` inside the
    device state, and every i2c transaction additionally emits a trace event
    (`Eff`), so that "zero register-transport calls" is the absence of
    register events in the trace.
  * External collaborators (input reporting, apm events, the platform
    callback, the rtc sink, kill of the init process, work scheduling,
    sleeping) are pure trace events.
  * The register addresses and bit constants come from the pcf50633 register
    header, which is not among the sources; the numeric values are
    placeholders (only distinctness and the bit layouts visible in the
    source matter to the claims).  Where a source fact could only be taken
    from the header, the definition says so in its doc comment.
  * C twos-complement truncation to a byte is modelled as `&&& 255`
    respectively as `% 256` on `Int`.
-/

namespace Pcf50633

/- Register addresses (placeholder values, pairwise distinct). -/

def PCF50633_REG_INT1 : Nat := 2
def PCF50633_REG_INT2 : Nat := 3
def PCF50633_REG_INT3 : Nat := 4
def PCF50633_REG_INT4 : Nat := 5
def PCF50633_REG_INT5 : Nat := 6
def PCF50633_REG_INT1M : Nat := 7
def PCF50633_REG_OOCSHDWN : Nat := 12
def PCF50633_REG_GPIO1CFG : Nat := 20
def PCF50633_REG_MBCC1 : Nat := 67
def PCF50633_REG_MBCC5 : Nat := 71
def PCF50633_REG_MBCC7 : Nat := 73
def PCF50633_REG_MBCS1 : Nat := 75
def PCF50633_REG_ADCC1 : Nat := 83
def PCF50633_REG_ADCC2 : Nat := 84
def PCF50633_REG_ADCC3 : Nat := 85
def PCF50633_REG_ADCS1 : Nat := 86
def PCF50633_REG_ADCS3 : Nat := 88

/- gpio numbering used by `configure_pmu_for_charger` to compute the GPO
   config register address (`PCF50633_GPO - PCF50633_GPIO1 +
   PCF50633_REG_GPIO1CFG`). -/

def PCF50633_GPIO1 : Nat := 1
def PCF50633_GPO : Nat := 4

/- Interrupt status bit positions.  The bit layout is confirmed by the
   `int_names` table of `pcf50633_report_resumers` in the source. -/

def PCF50633_INT1_ADPINS : Nat := 0x01
def PCF50633_INT1_ADPREM : Nat := 0x02
def PCF50633_INT1_USBINS : Nat := 0x04
def PCF50633_INT1_USBREM : Nat := 0x08
def PCF50633_INT1_ALARM : Nat := 0x40
def PCF50633_INT1_SECOND : Nat := 0x80

def PCF50633_INT2_ONKEYR : Nat := 0x01
def PCF50633_INT2_ONKEYF : Nat := 0x02

def PCF50633_INT3_BATFULL : Nat := 0x01
def PCF50633_INT3_CHGHALT : Nat := 0x02
def PCF50633_INT3_THLIMON : Nat := 0x04
def PCF50633_INT3_THLIMOFF : Nat := 0x08
def PCF50633_INT3_USBLIMON : Nat := 0x10
def PCF50633_INT3_USBLIMOFF : Nat := 0x20
def PCF50633_INT3_ADCRDY : Nat := 0x40
def PCF50633_INT3_ONKEY1S : Nat := 0x80

def PCF50633_INT4_LOWSYS : Nat := 0x01
def PCF50633_INT4_LOWBAT : Nat := 0x02
def PCF50633_INT4_HIGHTMP : Nat := 0x04

/- Other register bit constants. -/

def PCF50633_OOCSHDWN_GOSTDBY : Nat := 0x01
def PCF50633_OOCSHDWN_TOTRST : Nat := 0x04

def PCF50633_MBCC1_CHGENA : Nat := 0x01
def PCF50633_MBCC1_AUTORES : Nat := 0x04
def PCF50633_MBCC1_RESUME : Nat := 0x08

def PCF50633_MBCS1_USBPRES : Nat := 0x01
def PCF50633_MBCS1_USBOK : Nat := 0x02

def PCF50633_MBCC7_USB_100mA : Nat := 0x00
def PCF50633_MBCC7_USB_500mA : Nat := 0x01
def PCF50633_MBCC7_USB_1000mA : Nat := 0x02
def PCF50633_MBCC7_USB_SUSPEND : Nat := 0x03
def PCF56033_MBCC7_USB_MASK : Nat := 0x03

def PCF50633_ADCC1_ADCSTART : Nat := 0x01
def PCF50633_ADCC1_RES_10BIT : Nat := 0x02
def PCF50633_ADCC1_AVERAGE_16 : Nat := 0x08
def PCF50633_ADCC1_ADCMUX_MASK : Nat := 0xf0
def PCF50633_ADCC1_MUX_ADCIN1 : Nat := 0x70
def PCF50633_ADCS3_ADCDAT1L_MASK : Nat := 0x03

/- Device flag bits (the first six positions are confirmed by the
   `chgstate_names` index table in the source). -/

def PCF50633_F_CHG_ENABLED : Nat := 0x01
def PCF50633_F_CHG_PRESENT : Nat := 0x02
def PCF50633_F_USB_PRESENT : Nat := 0x04
def PCF50633_F_CHG_ERR : Nat := 0x08
def PCF50633_F_CHG_PROT : Nat := 0x10
def PCF50633_F_CHG_READY : Nat := 0x20
def PCF50633_F_PWR_PRESSED : Nat := 0x40
def PCF50633_F_RTC_SECOND : Nat := 0x80

/-- `flags` is a C machine word; clearing a bit is `&= ~bit`, modelled as
`&&& (MASK32 ^^^ bit)`. -/
def MASK32 : Nat := 0xffffffff

/- Platform feature bits. -/

def PCF50633_FEAT_MBC : Nat := 0x01
def PCF50633_FEAT_RTC : Nat := 0x10

/- Platform callback event codes. -/

def PMU_EVT_INSERT : Nat := 0
def PMU_EVT_REMOVE : Nat := 1
def PMU_EVT_USB_INSERT : Nat := 2
def PMU_EVT_USB_REMOVE : Nat := 3
def PMU_EVT_CHARGER_ACTIVE : Nat := 4
def PMU_EVT_CHARGER_IDLE : Nat := 5
def PMU_EVT_CHARGER_CHANGE : Nat := 6

def PCF50633_RTC_EVENT_ALARM : Nat := 0
def PCF50633_RTC_EVENT_SECOND : Nat := 1

/- Input key codes and apm event codes (values immaterial). -/

def KEY_POWER : Nat := 116
def KEY_POWER2 : Nat := 356
def KEY_BATTERY : Nat := 236

def APM_POWER_STATUS_CHANGE : Nat := 0
def APM_LOW_BATTERY : Nat := 1
def APM_CRITICAL_SUSPEND : Nat := 2

/- Suspend states.  `RUNNING` is 0 and the order is the declaration order of
   the C enum: the source compares with `!= 0`, `<` and specific values. -/

def PCF50633_SS_RUNNING : Nat := 0
def PCF50633_SS_STARTING_SUSPEND : Nat := 1
def PCF50633_SS_COMPLETED_SUSPEND : Nat := 2
def PCF50633_SS_STARTING_RESUME : Nat := 3
def PCF50633_SS_COMPLETED_RESUME : Nat := 4

/-- Modelled from the spec: the ADC FIFO is a fixed, power-of-two capacity
ring buffer; the depth constant lives in the register header that is not
among the sources.  8 is used; no claim depends on the exact value. -/
def MAX_ADC_FIFO_DEPTH : Nat := 8

/-- Kernel tick rate; configuration constant, value immaterial. -/
def HZ : Nat := 100

def ENOMEM : Int := 12
def EBUSY : Int := 16

/-- Modelled from the spec: nominal ADC reading with no charger attached
(reference level from the missing header; the claims only use the midpoint
expression, not the value). -/
def ADC_NOM_CHG_DETECT_NONE : Int := 43

/-- Modelled from the spec: nominal ADC reading with a 1A charger attached
(reference level from the missing header). -/
def ADC_NOM_CHG_DETECT_1A : Int := 6

def CHARGER_TYPE_NONE : Nat := 0
def CHARGER_TYPE_HOSTUSB : Nat := 1
def CHARGER_TYPE_1A : Nat := 2

/- Work items, for `schedule_work` trace events. -/

def WORK_MAIN : Nat := 0
def WORK_NOBAT : Nat := 1
def WORK_USB_CURLIMIT : Nat := 2

/-- Observable effects of a run: i2c traffic and collaborator calls. -/
inductive Eff where
  | regRead (reg : Nat)
  | regWrite (reg : Nat) (val : Nat)
  | blockRead (reg : Nat) (n : Nat)
  | blockWrite (reg : Nat) (vals : List Nat)
  | disableIrq
  | inputReportKey (key : Nat) (down : Nat)
  | inputSync
  | apmQueueEvent (e : Nat)
  | platformCb (feat : Nat) (evt : Nat)
  | rtcHandleEvent (e : Nat)
  | killInitSIGPWR
  | scheduleWork (task : Nat)
  | msleepE (ms : Nat)
  | completeSync (id : Nat) (result : Int)
  | extCallback (id : Nat) (result : Int)
  deriving DecidableEq

/-- The completion target of an ADC request.  In the source this is a C
function pointer plus parameter; the requests created inside pcf50633.c all
use `configure_pmu_for_charger` or the sync-read completion, external
callers supply their own (modelled opaquely). -/
inductive AdcCallback where
  | configure_pmu_for_charger
  | sync_read (id : Nat)
  | external (id : Nat)
  deriving DecidableEq

/-- One pending ADC conversion (struct adc_request). -/
structure AdcRequest where
  mux : Nat
  avg : Nat
  callback : AdcCallback
  deriving DecidableEq

/-- The platform data consumed by the driver (pcf50633_platform_data). -/
structure PlatformData where
  used_features : Nat
  cb_present : Bool
  onkey_seconds_sig_init : Int
  onkey_seconds_shutdown : Int
  resumers : List Nat

/-- The per-device context (struct pcf50633_data).  Locks are elided: the
embedding is of the single-threaded behaviour of each routine. -/
structure PcfState where
  suspend_state : Nat
  flags : Nat
  last_curlim_set : Int
  usb_removal_count : Nat
  usb_removal_count_usb_curlimit : Nat
  usb_removal_count_nobat : Nat
  pending_curlimit : Int
  coldplug_done : Bool
  probe_completed : Bool
  onkey_seconds : Int
  suppress_onkey_events : Bool
  jiffies_last_bat_ins : Nat
  adc_queue_head : Nat
  adc_queue_tail : Nat
  adc_queue : Nat → Option AdcRequest
  pcfirq_resume : List Nat
  working : Bool
  working_nobat : Bool
  regs : Nat → Nat
  pdata : PlatformData

/-- Inputs decided outside the modelled code: the five interrupt status
bytes returned by the block read, transient transport and allocation
outcomes, the current jiffies value and whether the init process exists. -/
structure Env where
  pcfirq : List Nat
  read_ok : Bool
  clientdata_ok : Bool
  alloc_ok : Bool
  init_exists : Bool
  jiffies : Nat

/- Low-level register routines.  `__reg_write` and `__reg_read` log an error
   when called in `PCF50633_SS_COMPLETED_SUSPEND` (dev_err + dump_stack) but
   still perform the access; the log has no observable effect beyond the
   access itself, so it is not a separate trace event. -/

def __reg_write (pcf : PcfState) (reg val : Nat) : PcfState × List Eff :=
  ({ pcf with regs := Function.update pcf.regs reg val }, [Eff.regWrite reg val])

def __reg_read (pcf : PcfState) (reg : Nat) : Nat × List Eff :=
  ((pcf.regs reg) &&& 255, [Eff.regRead reg])

def pcf50633_reg_write (pcf : PcfState) (reg val : Nat) : PcfState × List Eff :=
  __reg_write pcf reg val

/-- `pcf50633_reg_read` parameterized over the raw transport return value of
`i2c_smbus_read_byte_data` (the register byte, or a negative errno).  The C
body is `ret & 0xff` on the int32, i.e. the low byte of the twos-complement
representation, which equals `ret % 256` (Euclidean remainder). -/
def pcf50633_reg_read_of_transport (ret : Int) : Nat :=
  (ret % 256).toNat

/-- `pcf50633_reg_read` on the success path (transport returns the stored
register byte). -/
def pcf50633_reg_read (pcf : PcfState) (reg : Nat) : Nat × List Eff :=
  __reg_read pcf reg

def pcf50633_reg_set_bit_mask (pcf : PcfState) (reg mask val : Nat) :
    PcfState × List Eff :=
  let val := val &&& mask
  let tmp := (pcf.regs reg) &&& 255
  let tmp := (tmp &&& (255 ^^^ mask)) ||| val
  let (pcf, t) := __reg_write pcf reg tmp
  (pcf, Eff.regRead reg :: t)

def pcf50633_reg_clear_bits (pcf : PcfState) (reg val : Nat) :
    PcfState × List Eff :=
  let tmp := (pcf.regs reg) &&& 255
  let tmp := tmp &&& (255 ^^^ (val &&& 255))
  let (pcf, t) := __reg_write pcf reg tmp
  (pcf, Eff.regRead reg :: t)

/-- Block write (`pcf50633_write`): updates `nr_regs` consecutive registers
and emits one block transaction event. -/
def pcf50633_write (pcf : PcfState) (reg : Nat) (vals : List Nat) :
    PcfState × List Eff :=
  let regs := (List.range vals.length).foldl
      (fun f i => Function.update f (reg + i) (vals.getD i 0)) pcf.regs
  ({ pcf with regs := regs }, [Eff.blockWrite reg vals])

def pcf50633_go_standby (pcf : PcfState) : PcfState × List Eff :=
  pcf50633_reg_set_bit_mask pcf PCF50633_REG_OOCSHDWN
    PCF50633_OOCSHDWN_GOSTDBY PCF50633_OOCSHDWN_GOSTDBY

/- ADC scheduler. -/

def async_adc_read_setup (pcf : PcfState) (channel avg : Nat) :
    PcfState × List Eff :=
  let channel := channel &&& PCF50633_ADCC1_ADCMUX_MASK
  let (pcf, t1) := __reg_write pcf PCF50633_REG_ADCC2 0x00
  let (pcf, t2) := __reg_write pcf PCF50633_REG_ADCC3 0x01
  let (pcf, t3) := __reg_write pcf PCF50633_REG_ADCC1
      (channel ||| avg ||| PCF50633_ADCC1_ADCSTART ||| PCF50633_ADCC1_RES_10BIT)
  (pcf, t1 ++ t2 ++ t3)

def adc_read_result (pcf : PcfState) : Nat × List Eff :=
  let (h, t1) := __reg_read pcf PCF50633_REG_ADCS1
  let (l, t2) := __reg_read pcf PCF50633_REG_ADCS3
  ((h <<< 2) ||| (l &&& PCF50633_ADCS3_ADCDAT1L_MASK), t1 ++ t2)

def trigger_next_adc_job_if_any (pcf : PcfState) : PcfState × List Eff :=
  if pcf.adc_queue_head = pcf.adc_queue_tail then (pcf, [])
  else
    match pcf.adc_queue pcf.adc_queue_tail with
    | some req => async_adc_read_setup pcf req.mux req.avg
    | none => (pcf, [])

def adc_add_request_to_queue (pcf : PcfState) (req : AdcRequest) :
    PcfState × List Eff :=
  let old_head := pcf.adc_queue_head
  let pcf := { pcf with
    adc_queue := Function.update pcf.adc_queue pcf.adc_queue_head (some req),
    adc_queue_head := (pcf.adc_queue_head + 1) &&& (MAX_ADC_FIFO_DEPTH - 1) }
  if old_head = pcf.adc_queue_tail then trigger_next_adc_job_if_any pcf
  else (pcf, [])

/-- `pcf50633_adc_async_read`; `alloc_ok` is the outcome of the `kmalloc`.
Returns the C return value (0 or -ENOMEM) with the new state and trace. -/
def pcf50633_adc_async_read (pcf : PcfState) (alloc_ok : Bool)
    (mux avg : Nat) (callback : AdcCallback) : Int × PcfState × List Eff :=
  if !alloc_ok then (-ENOMEM, pcf, [])
  else
    let (pcf, t) := adc_add_request_to_queue pcf
        { mux := mux, avg := avg, callback := callback }
    (0, pcf, t)

/-- The submission half of `pcf50633_adc_sync_read` (the blocking wait on
the completion is scheduling, outside the embedding); it enqueues through
the exact same `adc_add_request_to_queue` path. -/
def pcf50633_adc_sync_read_submit (pcf : PcfState) (alloc_ok : Bool)
    (mux avg : Nat) (id : Nat) : Int × PcfState × List Eff :=
  if !alloc_ok then (-ENOMEM, pcf, [])
  else
    let (pcf, t) := adc_add_request_to_queue pcf
        { mux := mux, avg := avg, callback := AdcCallback.sync_read id }
    (0, pcf, t)

/- Charger state machine. -/

def interpret_charger_type_from_adc (pcf : PcfState) (sample : Int) : Nat :=
  if sample < (ADC_NOM_CHG_DETECT_NONE + ADC_NOM_CHG_DETECT_1A) / 2 then
    CHARGER_TYPE_1A
  else if pcf.flags &&& PCF50633_F_USB_PRESENT ≠ 0 then
    CHARGER_TYPE_HOSTUSB
  else
    CHARGER_TYPE_NONE

/-- The tier selection if-chain of `pcf50633_usb_curlim_set`. -/
def curlim_bits (ma : Int) : Nat :=
  if ma ≥ 1000 then PCF50633_MBCC7_USB_1000mA
  else if ma ≥ 500 then PCF50633_MBCC7_USB_500mA
  else if ma ≥ 100 then PCF50633_MBCC7_USB_100mA
  else PCF50633_MBCC7_USB_SUSPEND

def pcf50633_charge_enable (pcf : PcfState) (on' : Int) : PcfState × List Eff :=
  if pcf.pdata.used_features &&& PCF50633_FEAT_MBC = 0 then (pcf, [])
  else if on' ≠ 0 then
    let pcf := { pcf with flags := pcf.flags ||| PCF50633_F_CHG_ENABLED }
    let (usblim, t1) := pcf50633_reg_read pcf PCF50633_REG_MBCC7
    let usblim := usblim &&& PCF56033_MBCC7_USB_MASK
    let t2 :=
      if (usblim = PCF50633_MBCC7_USB_1000mA ∨ usblim = PCF50633_MBCC7_USB_500mA)
          ∧ pcf.flags &&& PCF50633_F_USB_PRESENT ≠ 0 ∧ pcf.pdata.cb_present then
        [Eff.platformCb PCF50633_FEAT_MBC PMU_EVT_CHARGER_ACTIVE]
      else []
    let (pcf, t3) := pcf50633_reg_set_bit_mask pcf PCF50633_REG_MBCC1
        PCF50633_MBCC1_CHGENA PCF50633_MBCC1_CHGENA
    (pcf, t1 ++ t2 ++ t3)
  else
    let pcf := { pcf with flags := pcf.flags &&& (MASK32 ^^^ PCF50633_F_CHG_ENABLED) }
    let t1 :=
      if pcf.pdata.cb_present then
        [Eff.platformCb PCF50633_FEAT_MBC PMU_EVT_CHARGER_IDLE]
      else []
    let (pcf, t2) := pcf50633_reg_set_bit_mask pcf PCF50633_REG_MBCC1
        PCF50633_MBCC1_CHGENA 0
    (pcf, t1 ++ t2)

/-- `pcf50633_usb_curlim_set`.  Note: in the non-charging default branch the
source calls `pcf->pdata->cb` without a NULL check (unlike everywhere else);
the event is emitted unconditionally to mirror that. -/
def pcf50633_usb_curlim_set (pcf : PcfState) (ma : Int) : PcfState × List Eff :=
  let pcf := { pcf with last_curlim_set := ma }
  let bits := curlim_bits ma
  let (pcf, t1) := pcf50633_reg_set_bit_mask pcf PCF50633_REG_MBCC7
      PCF56033_MBCC7_USB_MASK bits
  let charging := bits = PCF50633_MBCC7_USB_500mA ∨ bits = PCF50633_MBCC7_USB_1000mA
  let active : Int := if charging then 1 else 0
  let t2 :=
    if ¬charging ∧ pcf.flags &&& PCF50633_F_USB_PRESENT ≠ 0 then
      [Eff.platformCb PCF50633_FEAT_MBC PMU_EVT_CHARGER_ACTIVE]
    else []
  let (pcf, t3) := pcf50633_charge_enable pcf active
  let (pcf, t4) := pcf50633_reg_set_bit_mask pcf PCF50633_REG_MBCC1
      PCF50633_MBCC1_AUTORES 0
  let (pcf, t5) := pcf50633_reg_set_bit_mask pcf PCF50633_REG_MBCC1
      PCF50633_MBCC1_RESUME PCF50633_MBCC1_RESUME
  let (pcf, t6) := pcf50633_reg_set_bit_mask pcf PCF50633_REG_MBCC1
      PCF50633_MBCC1_AUTORES PCF50633_MBCC1_AUTORES
  (pcf, t1 ++ t2 ++ t3 ++ t4 ++ t5 ++ t6)

def configure_pmu_for_charger (pcf : PcfState) (adc_result_raw : Int) :
    PcfState × List Eff :=
  let type := interpret_charger_type_from_adc pcf adc_result_raw
  let (pcf, t1) :=
    if type = CHARGER_TYPE_NONE then pcf50633_usb_curlim_set pcf 0
    else if type = CHARGER_TYPE_HOSTUSB then
      if pcf.last_curlim_set > 100 then
        pcf50633_usb_curlim_set pcf pcf.last_curlim_set
      else
        pcf50633_usb_curlim_set pcf 100
    else
      let (pcf, ta) := pcf50633_usb_curlim_set pcf 1000
      let gpocfg := PCF50633_GPO - PCF50633_GPIO1 + PCF50633_REG_GPIO1CFG
      let (v, tb) := __reg_read pcf gpocfg
      let (pcf, tc) := __reg_write pcf gpocfg (v &&& 0xf0)
      (pcf, ta ++ tb ++ tc)
  let (pcf, t2) := __reg_write pcf PCF50633_REG_MBCC5 0xff
  (pcf, t1 ++ t2)

/-- Dispatch of an ADC completion callback (C calls through the stored
function pointer). -/
def run_adc_callback (pcf : PcfState) (cb : AdcCallback) (result : Int) :
    PcfState × List Eff :=
  match cb with
  | AdcCallback.configure_pmu_for_charger => configure_pmu_for_charger pcf result
  | AdcCallback.sync_read id => (pcf, [Eff.completeSync id result])
  | AdcCallback.external id => (pcf, [Eff.extCallback id result])

/- Deferred work: USB current-limit notifier. -/

/-- `pcf50633_work_usbcurlim` (one invocation of the deferred handler).
The `msleep(1)` after a reschedule and the dev_err logs are elided from the
state; rescheduling is a trace event. -/
def pcf50633_work_usbcurlim (pcf : PcfState) : PcfState × List Eff :=
  if pcf.suspend_state = PCF50633_SS_STARTING_SUSPEND ∨
      pcf.suspend_state = PCF50633_SS_COMPLETED_SUSPEND then
    (pcf, [])
  else if pcf.probe_completed = false then
    (pcf, [Eff.scheduleWork WORK_USB_CURLIMIT, Eff.msleepE 1])
  else if pcf.suspend_state ≠ 0 ∧
      pcf.suspend_state < PCF50633_SS_COMPLETED_RESUME then
    (pcf, [Eff.scheduleWork WORK_USB_CURLIMIT, Eff.msleepE 1])
  else if pcf.usb_removal_count_usb_curlimit ≠ pcf.usb_removal_count then
    (pcf, [])
  else
    pcf50633_usb_curlim_set pcf pcf.pending_curlimit

/-- `pcf50633_notify_usb_current_limit_change` on a non-NULL device. -/
def pcf50633_notify_usb_current_limit_change (pcf : PcfState) (ma : Int) :
    Int × PcfState × List Eff :=
  let pcf := { pcf with
    usb_removal_count_usb_curlimit := pcf.usb_removal_count,
    pending_curlimit := ma }
  (0, pcf, [Eff.scheduleWork WORK_USB_CURLIMIT])

/- The interrupt dispatcher, decomposed into the source blocks of
   `pcf50633_work` in their textual order. -/

/-- The first-service-after-resume block: snapshot the status bytes,
transition to `RUNNING`, and decide `suppress_onkey_events` from the ONKEY
bits of the second status byte. -/
def work_resume_check (pcf : PcfState) (pcfirq : List Nat) : PcfState :=
  if pcf.suspend_state ≠ PCF50633_SS_RUNNING then
    let pcf := { pcf with
      pcfirq_resume := pcfirq.take 5,
      suspend_state := PCF50633_SS_RUNNING }
    if pcfirq.getD 1 0 &&& (PCF50633_INT2_ONKEYF ||| PCF50633_INT2_ONKEYR) ≠ 0 then
      { pcf with suppress_onkey_events := true }
    else
      { pcf with suppress_onkey_events := false }
  else pcf

/-- The cold-plug block.  Returns the possibly modified first status byte
(the source clears the SECOND bit of its local copy). -/
def work_coldplug (pcf : PcfState) (env : Env) (pcfirq0 : Nat) :
    PcfState × List Eff × Nat :=
  if pcf.coldplug_done then (pcf, [], pcfirq0)
  else
    let pcfirq0 := pcfirq0 &&& (255 ^^^ PCF50633_INT1_SECOND)
    let (pcf, t1) := pcf50633_reg_set_bit_mask pcf PCF50633_REG_INT1M
        PCF50633_INT1_SECOND PCF50633_INT1_SECOND
    let (mbcs1, t2) := __reg_read pcf PCF50633_REG_MBCS1
    let (pcf, t3) :=
      if mbcs1 &&& (PCF50633_MBCS1_USBPRES ||| PCF50633_MBCS1_USBOK) =
          (PCF50633_MBCS1_USBPRES ||| PCF50633_MBCS1_USBOK) then
        let pcf := { pcf with flags := pcf.flags ||| PCF50633_F_USB_PRESENT }
        (pcf, [Eff.inputReportKey KEY_POWER2 1,
               Eff.apmQueueEvent APM_POWER_STATUS_CHANGE] ++
          (if pcf.pdata.cb_present then
            [Eff.platformCb PCF50633_FEAT_MBC PMU_EVT_USB_INSERT] else []))
      else (pcf, [])
    let (_, pcf, t4) := pcf50633_adc_async_read pcf env.alloc_ok
        PCF50633_ADCC1_MUX_ADCIN1 PCF50633_ADCC1_AVERAGE_16
        AdcCallback.configure_pmu_for_charger
    let pcf := { pcf with coldplug_done := true }
    (pcf, t1 ++ t2 ++ t3 ++ t4, pcfirq0)

/-- The SECOND-tick block of the dispatcher (rtc forward plus the on-key
held-seconds counter and its two thresholds).  Note the source guards both
threshold actions with `>=` and no per-press latch. -/
def work_second (pcf : PcfState) (env : Env) : PcfState × List Eff :=
  let t0 :=
    if pcf.flags &&& PCF50633_F_RTC_SECOND ≠ 0 then
      [Eff.rtcHandleEvent PCF50633_RTC_EVENT_SECOND]
    else []
  if pcf.onkey_seconds ≥ 0 ∧ pcf.flags &&& PCF50633_F_PWR_PRESSED ≠ 0 then
    let pcf := { pcf with onkey_seconds := pcf.onkey_seconds + 1 }
    let t1 :=
      if pcf.onkey_seconds ≥ pcf.pdata.onkey_seconds_sig_init then
        (if env.init_exists then [Eff.killInitSIGPWR] else [])
      else []
    let (pcf, t2) :=
      if pcf.onkey_seconds ≥ pcf.pdata.onkey_seconds_shutdown then
        pcf50633_go_standby pcf
      else (pcf, [])
    (pcf, t0 ++ t1 ++ t2)
  else (pcf, t0)

/-- ADPINS block of the int1 decode (charger inserted). -/
def int1_adpins (pcf : PcfState) (b : Nat) : PcfState × List Eff :=
  if b &&& PCF50633_INT1_ADPINS ≠ 0 then
    let pcf := { pcf with flags := pcf.flags ||| PCF50633_F_CHG_PRESENT }
    (pcf, [Eff.inputReportKey KEY_BATTERY 1,
           Eff.apmQueueEvent APM_POWER_STATUS_CHANGE] ++
      (if pcf.pdata.cb_present then
        [Eff.platformCb PCF50633_FEAT_MBC PMU_EVT_INSERT] else []))
  else (pcf, [])

/-- ADPREM block of the int1 decode (charger removed). -/
def int1_adprem (pcf : PcfState) (b : Nat) : PcfState × List Eff :=
  if b &&& PCF50633_INT1_ADPREM ≠ 0 then
    let pcf := { pcf with flags := pcf.flags &&& (MASK32 ^^^ PCF50633_F_CHG_PRESENT) }
    (pcf, [Eff.inputReportKey KEY_BATTERY 0,
           Eff.apmQueueEvent APM_POWER_STATUS_CHANGE] ++
      (if pcf.pdata.cb_present then
        [Eff.platformCb PCF50633_FEAT_MBC PMU_EVT_REMOVE] else []))
  else (pcf, [])

/-- USBINS block of the int1 decode. -/
def int1_usbins (pcf : PcfState) (env : Env) (b : Nat) : PcfState × List Eff :=
  if b &&& PCF50633_INT1_USBINS ≠ 0 then
    let pcf := { pcf with flags := pcf.flags ||| PCF50633_F_USB_PRESENT }
    let t := [Eff.inputReportKey KEY_POWER2 1,
              Eff.apmQueueEvent APM_POWER_STATUS_CHANGE] ++
      (if pcf.pdata.cb_present then
        [Eff.platformCb PCF50633_FEAT_MBC PMU_EVT_USB_INSERT] else []) ++
      [Eff.msleepE 500]
    let r := pcf50633_adc_async_read pcf env.alloc_ok
        PCF50633_ADCC1_MUX_ADCIN1 PCF50633_ADCC1_AVERAGE_16
        AdcCallback.configure_pmu_for_charger
    (r.2.1, t ++ r.2.2)
  else (pcf, [])

/-- USBREM block of the int1 decode; only acted on when USBINS is not also
reported in the same pass.  The counter increment is outside the
USB-present guard. -/
def int1_usbrem (pcf : PcfState) (env : Env) (b : Nat) : PcfState × List Eff :=
  if b &&& PCF50633_INT1_USBREM ≠ 0 ∧ b &&& PCF50633_INT1_USBINS = 0 then
    let pcf := { pcf with usb_removal_count := pcf.usb_removal_count + 1 }
    if pcf.flags &&& PCF50633_F_USB_PRESENT ≠ 0 then
      let pcf := { pcf with
        flags := pcf.flags &&& (MASK32 ^^^ PCF50633_F_USB_PRESENT) }
      let t := [Eff.inputReportKey KEY_POWER2 0,
                Eff.apmQueueEvent APM_POWER_STATUS_CHANGE] ++
        (if pcf.pdata.cb_present then
          [Eff.platformCb PCF50633_FEAT_MBC PMU_EVT_USB_REMOVE] else [])
      let pcf := { pcf with last_curlim_set := 0 }
      let r := pcf50633_adc_async_read pcf env.alloc_ok
          PCF50633_ADCC1_MUX_ADCIN1 PCF50633_ADCC1_AVERAGE_16
          AdcCallback.configure_pmu_for_charger
      (r.2.1, t ++ r.2.2)
    else (pcf, [])
  else (pcf, [])

/-- ALARM block of the int1 decode (no state change). -/
def int1_alarm (pcf : PcfState) (b : Nat) : List Eff :=
  if b &&& PCF50633_INT1_ALARM ≠ 0 ∧
      pcf.pdata.used_features &&& PCF50633_FEAT_RTC ≠ 0 then
    [Eff.rtcHandleEvent PCF50633_RTC_EVENT_ALARM]
  else []

/-- Decode of the first status byte (charger insert/remove, USB
insert/remove, alarm, second tick), block by block in source order. -/
def work_int1 (pcf : PcfState) (env : Env) (pcfirq0 : Nat) :
    PcfState × List Eff :=
  let rA := int1_adpins pcf pcfirq0
  let rB := int1_adprem rA.1 pcfirq0
  let rC := int1_usbins rB.1 env pcfirq0
  let rD := int1_usbrem rC.1 env pcfirq0
  let tE := int1_alarm rD.1 pcfirq0
  let rF :=
    if pcfirq0 &&& PCF50633_INT1_SECOND ≠ 0 then work_second rD.1 env
    else (rD.1, [])
  (rF.1, rA.2 ++ rB.2 ++ rC.2 ++ rD.2 ++ tE ++ rF.2)

/-- Decode of the second status byte (on-key edges). -/
def work_int2 (pcf : PcfState) (pcfirq1 : Nat) : PcfState × List Eff :=
  let (pcf, tF) :=
    if pcfirq1 &&& PCF50633_INT2_ONKEYF ≠ 0 then
      let pcf := { pcf with flags := pcf.flags ||| PCF50633_F_PWR_PRESSED }
      if pcf.suppress_onkey_events = false then
        (pcf, [Eff.inputReportKey KEY_POWER 1])
      else (pcf, [])
    else (pcf, [])
  let (pcf, tR) :=
    if pcfirq1 &&& PCF50633_INT2_ONKEYR ≠ 0 then
      let pcf := { pcf with
        flags := pcf.flags &&& (MASK32 ^^^ PCF50633_F_PWR_PRESSED),
        onkey_seconds := -1 }
      let (pcf, t1) :=
        if pcf.suppress_onkey_events = false then
          (pcf, [Eff.inputReportKey KEY_POWER 0])
        else
          ({ pcf with suppress_onkey_events := false }, [])
      let (pcf, t2) :=
        if pcf.flags &&& PCF50633_F_RTC_SECOND = 0 then
          pcf50633_reg_set_bit_mask pcf PCF50633_REG_INT1M
            PCF50633_INT1_SECOND PCF50633_INT1_SECOND
        else (pcf, [])
      (pcf, t1 ++ t2)
    else (pcf, [])
  (pcf, tF ++ tR)

/-- BATFULL block of the int3 decode: inside the after-battery-insertion
grace window it performs the suspend/restore dance on the USB field of
MBCC7; outside it notifies charger-idle. -/
def int3_batfull (pcf : PcfState) (env : Env) (b : Nat) : PcfState × List Eff :=
  if b &&& PCF50633_INT3_BATFULL ≠ 0 then
    if ((env.jiffies % 2 ^ 32) + 2 ^ 32 -
        (pcf.jiffies_last_bat_ins % 2 ^ 32)) % 2 ^ 32 < HZ * 2 then
      let v := pcf50633_reg_read pcf PCF50633_REG_MBCC7
      let ret := v.1 &&& PCF56033_MBCC7_USB_MASK
      let r2 := pcf50633_reg_set_bit_mask pcf PCF50633_REG_MBCC7
          PCF56033_MBCC7_USB_MASK PCF50633_MBCC7_USB_SUSPEND
      let r3 := pcf50633_reg_set_bit_mask r2.1 PCF50633_REG_MBCC7
          PCF56033_MBCC7_USB_MASK ret
      (r3.1, v.2 ++ r2.2 ++ r3.2)
    else
      (pcf, if pcf.pdata.cb_present then
        [Eff.platformCb PCF50633_FEAT_MBC PMU_EVT_CHARGER_IDLE] else [])
  else (pcf, [])

/-- THLIMON block of the int3 decode. -/
def int3_thlimon (pcf : PcfState) (b : Nat) : PcfState × List Eff :=
  if b &&& PCF50633_INT3_THLIMON ≠ 0 then
    let pcf := { pcf with flags := pcf.flags ||| PCF50633_F_CHG_PROT }
    (pcf, if pcf.pdata.cb_present then
      [Eff.platformCb PCF50633_FEAT_MBC PMU_EVT_CHARGER_CHANGE] else [])
  else (pcf, [])

/-- THLIMOFF block of the int3 decode. -/
def int3_thlimoff (pcf : PcfState) (b : Nat) : PcfState × List Eff :=
  if b &&& PCF50633_INT3_THLIMOFF ≠ 0 then
    let pcf := { pcf with flags := pcf.flags &&& (MASK32 ^^^ PCF50633_F_CHG_PROT) }
    (pcf, if pcf.pdata.cb_present then
      [Eff.platformCb PCF50633_FEAT_MBC PMU_EVT_CHARGER_CHANGE] else [])
  else (pcf, [])

/-- ADCRDY block of the int3 decode: pop the FIFO tail, read the 10-bit
result, run the completion callback, free the request and start the next
queued conversion if any. -/
def int3_adcrdy (pcf : PcfState) (b : Nat) : PcfState × List Eff :=
  if b &&& PCF50633_INT3_ADCRDY ≠ 0 then
    let tail := pcf.adc_queue_tail
    let pcf := { pcf with
      adc_queue_tail := (pcf.adc_queue_tail + 1) &&& (MAX_ADC_FIFO_DEPTH - 1) }
    match pcf.adc_queue tail with
    | some req =>
      let res := adc_read_result pcf
      let r2 := run_adc_callback pcf req.callback (res.1 : Int)
      let pcf := { r2.1 with adc_queue := Function.update r2.1.adc_queue tail none }
      let r3 := trigger_next_adc_job_if_any pcf
      (r3.1, res.2 ++ r2.2 ++ r3.2)
    | none => (pcf, [])
  else (pcf, [])

/-- ONKEY1S block of the int3 decode: start the held-seconds counter,
acknowledge via TOTRST and unmask the SECOND tick. -/
def int3_onkey1s (pcf : PcfState) (b : Nat) : PcfState × List Eff :=
  if b &&& PCF50633_INT3_ONKEY1S ≠ 0 then
    let pcf := { pcf with onkey_seconds := 0 }
    let r1 := pcf50633_reg_set_bit_mask pcf PCF50633_REG_OOCSHDWN
        PCF50633_OOCSHDWN_TOTRST PCF50633_OOCSHDWN_TOTRST
    let r2 := pcf50633_reg_clear_bits r1.1 PCF50633_REG_INT1M
        PCF50633_INT1_SECOND
    (r2.1, r1.2 ++ r2.2)
  else (pcf, [])

/-- Decode of the third status byte (charger events, ADC completion,
on-key-held-1s), block by block in source order. -/
def work_int3 (pcf : PcfState) (env : Env) (pcfirq2 : Nat) :
    PcfState × List Eff :=
  let rA := int3_batfull pcf env pcfirq2
  let tB :=
    if pcfirq2 &&& PCF50633_INT3_CHGHALT ≠ 0 ∧ rA.1.pdata.cb_present then
      [Eff.platformCb PCF50633_FEAT_MBC PMU_EVT_CHARGER_CHANGE]
    else []
  let rC := int3_thlimon rA.1 pcfirq2
  let rD := int3_thlimoff rC.1 pcfirq2
  let tE :=
    if pcfirq2 &&& PCF50633_INT3_USBLIMON ≠ 0 ∧ rD.1.pdata.cb_present then
      [Eff.platformCb PCF50633_FEAT_MBC PMU_EVT_CHARGER_CHANGE]
    else []
  let tF :=
    if pcfirq2 &&& PCF50633_INT3_USBLIMOFF ≠ 0 ∧ rD.1.pdata.cb_present then
      [Eff.platformCb PCF50633_FEAT_MBC PMU_EVT_CHARGER_CHANGE]
    else []
  let rG := int3_adcrdy rD.1 pcfirq2
  let rH := int3_onkey1s rG.1 pcfirq2
  (rH.1, rA.2 ++ tB ++ rC.2 ++ rD.2 ++ tE ++ tF ++ rG.2 ++ rH.2)

/-- LOWBAT/LOWSYS block of the int4 decode: with valid USB power it
notifies charger-idle, reasserts the resume bit and starts the no-battery
poller if idle; without it, it signals init (or raises a critical suspend
before init exists); in both cases it acknowledges via TOTRST. -/
def int4_lowbat (pcf : PcfState) (env : Env) (b : Nat) : PcfState × List Eff :=
  if b &&& (PCF50633_INT4_LOWBAT ||| PCF50633_INT4_LOWSYS) ≠ 0 then
    let v := __reg_read pcf PCF50633_REG_MBCS1
    let r1 :=
      if v.1 &&& (PCF50633_MBCS1_USBPRES ||| PCF50633_MBCS1_USBOK) =
          (PCF50633_MBCS1_USBPRES ||| PCF50633_MBCS1_USBOK) then
        let ta :=
          if pcf.pdata.cb_present then
            [Eff.platformCb PCF50633_FEAT_MBC PMU_EVT_CHARGER_IDLE]
          else []
        let rb := pcf50633_reg_set_bit_mask pcf PCF50633_REG_MBCC1
            PCF50633_MBCC1_RESUME PCF50633_MBCC1_RESUME
        let rc :=
          if rb.1.working_nobat = false then
            ({ rb.1 with usb_removal_count_nobat := rb.1.usb_removal_count },
             [Eff.scheduleWork WORK_NOBAT])
          else (rb.1, [])
        (rc.1, ta ++ rb.2 ++ rc.2)
      else
        (pcf,
          if env.init_exists then
            [Eff.apmQueueEvent APM_LOW_BATTERY, Eff.killInitSIGPWR]
          else
            [Eff.apmQueueEvent APM_CRITICAL_SUSPEND])
    let r2 := pcf50633_reg_set_bit_mask r1.1 PCF50633_REG_OOCSHDWN
        PCF50633_OOCSHDWN_TOTRST PCF50633_OOCSHDWN_TOTRST
    (r2.1, v.2 ++ r1.2 ++ r2.2)
  else (pcf, [])

/-- Decode of the fourth status byte (low battery, high temperature; the
power-fail bits only produce debug output).  The no-battery poller itself
is a separate task; its scheduling is a trace event. -/
def work_int4 (pcf : PcfState) (env : Env) (pcfirq3 : Nat) :
    PcfState × List Eff :=
  let rA := int4_lowbat pcf env pcfirq3
  let tB :=
    if pcfirq3 &&& PCF50633_INT4_HIGHTMP ≠ 0 then
      [Eff.apmQueueEvent APM_CRITICAL_SUSPEND]
    else []
  (rA.1, rA.2 ++ tB)

/-- One invocation of the dispatcher `pcf50633_work`.  The `put_device` and
`get_device` refcount traffic and the mutexes are elided; the `working`
flag, the bail, reschedule and decode paths follow the source exactly
(the always-false `!&pcf->client->dev` sanity check is dropped). -/
def pcf50633_work (pcf : PcfState) (env : Env) : PcfState × List Eff :=
  let pcf := { pcf with working := true }
  if pcf.suspend_state = PCF50633_SS_STARTING_SUSPEND ∨
      pcf.suspend_state = PCF50633_SS_COMPLETED_SUSPEND then
    ({ pcf with working := false }, [Eff.inputSync])
  else if pcf.suspend_state ≠ 0 ∧
      pcf.suspend_state ≠ PCF50633_SS_COMPLETED_RESUME then
    (pcf, [Eff.msleepE 10, Eff.scheduleWork WORK_MAIN])
  else if env.clientdata_ok = false then
    (pcf, [Eff.msleepE 10, Eff.scheduleWork WORK_MAIN])
  else if env.read_ok = false then
    (pcf, [Eff.blockRead PCF50633_REG_INT1 5, Eff.msleepE 10,
           Eff.scheduleWork WORK_MAIN])
  else
    let pcf := work_resume_check pcf env.pcfirq
    let (pcf, tCold, irq0) := work_coldplug pcf env (env.pcfirq.getD 0 0)
    let (pcf, t1) := work_int1 pcf env irq0
    let (pcf, t2) := work_int2 pcf (env.pcfirq.getD 1 0)
    let (pcf, t3) := work_int3 pcf env (env.pcfirq.getD 2 0)
    let (pcf, t4) := work_int4 pcf env (env.pcfirq.getD 3 0)
    let pcf := { pcf with working := false }
    (pcf, Eff.blockRead PCF50633_REG_INT1 5 ::
      (tCold ++ t1 ++ t2 ++ t3 ++ t4 ++ [Eff.inputSync]))

/-- `pcf50633_suspend`.  `event_is_suspend` is `state.event ==
PM_EVENT_SUSPEND`.  Returns the C return value with the new state and
trace; `disable_irq` happens between the two suspend-state updates and
before the interrupt-mask block write, exactly as in the source. -/
def pcf50633_suspend (pcf : PcfState) (event_is_suspend : Bool) :
    Int × PcfState × List Eff :=
  if event_is_suspend = false ∨ pcf.suspend_state ≠ PCF50633_SS_RUNNING then
    (-EBUSY, pcf, [])
  else
    let pcf := { pcf with suspend_state := PCF50633_SS_STARTING_SUSPEND }
    let res := pcf.pdata.resumers.map (fun r => 255 ^^^ (r &&& 255))
    let (pcf, t2) := pcf50633_write pcf PCF50633_REG_INT1M res
    let pcf := { pcf with suspend_state := PCF50633_SS_COMPLETED_SUSPEND }
    (0, pcf, Eff.disableIrq :: t2)

/- Trace observations. -/

/-- Whether an effect is a register-transport access. -/
def isRegAccess : Eff → Bool
  | Eff.regRead _ => true
  | Eff.regWrite _ _ => true
  | Eff.blockRead _ _ => true
  | Eff.blockWrite _ _ => true
  | _ => false

def regAccesses (t : List Eff) : List Eff := t.filter isRegAccess

def isKillInit : Eff → Bool
  | Eff.killInitSIGPWR => true
  | _ => false

/-- A write that sets the GOSTDBY bit of OOCSHDWN, i.e. the hardware
standby command of `pcf50633_go_standby`. -/
def isStandbyWrite : Eff → Bool
  | Eff.regWrite r v =>
      r == PCF50633_REG_OOCSHDWN && v &&& PCF50633_OOCSHDWN_GOSTDBY != 0
  | _ => false

def countKillInit (t : List Eff) : Nat := t.countP isKillInit

def countStandby (t : List Eff) : Nat := t.countP isStandbyWrite

/- Concrete fixtures used by counterexamples and witnesses. -/

/-- A register file with every register zero. -/
def zeroRegs : Nat → Nat := fun _ => 0

def basePdata : PlatformData :=
  { used_features := PCF50633_FEAT_MBC
    cb_present := true
    onkey_seconds_sig_init := 2
    onkey_seconds_shutdown := 3
    resumers := [1, 2, 3, 4, 5] }

/-- A quiescent running device context. -/
def baseState : PcfState :=
  { suspend_state := PCF50633_SS_RUNNING
    flags := 0
    last_curlim_set := 0
    usb_removal_count := 0
    usb_removal_count_usb_curlimit := 0
    usb_removal_count_nobat := 0
    pending_curlimit := 0
    coldplug_done := true
    probe_completed := true
    onkey_seconds := -1
    suppress_onkey_events := false
    jiffies_last_bat_ins := 0
    adc_queue_head := 0
    adc_queue_tail := 0
    adc_queue := fun _ => none
    pcfirq_resume := []
    working := false
    working_nobat := false
    regs := zeroRegs
    pdata := basePdata }

def reqA : AdcRequest :=
  { mux := PCF50633_ADCC1_MUX_ADCIN1
    avg := PCF50633_ADCC1_AVERAGE_16
    callback := AdcCallback.external 7 }

/-- A context whose ADC FIFO is full: slots 0..6 occupied, head 7, tail 0,
so `(head + 1) &&& 7 = tail`. -/
def fullQueueState : PcfState :=
  { baseState with
    adc_queue_head := 7
    adc_queue_tail := 0
    adc_queue := fun i => if i < 7 then some reqA else none }

/-- An environment whose status block reports only a SECOND tick. -/
def tickEnv : Env :=
  { pcfirq := [PCF50633_INT1_SECOND, 0, 0, 0, 0]
    read_ok := true
    clientdata_ok := true
    alloc_ok := true
    init_exists := true
    jiffies := 100000 }

/-- A running context in which the on-key is held and the held-seconds
counter has just been started by ONKEY1S. -/
def heldState : PcfState :=
  { baseState with flags := PCF50633_F_PWR_PRESSED, onkey_seconds := 0 }

def tick4 : PcfState × List Eff :=
  let r1 := pcf50633_work heldState tickEnv
  let r2 := pcf50633_work r1.1 tickEnv
  let r3 := pcf50633_work r2.1 tickEnv
  let r4 := pcf50633_work r3.1 tickEnv
  (r4.1, r1.2 ++ r2.2 ++ r3.2 ++ r4.2)

def resumeWakeState : PcfState :=
  { baseState with suspend_state := PCF50633_SS_COMPLETED_RESUME }

def resumeWakeEnv : Env :=
  { tickEnv with pcfirq := [PCF50633_INT1_USBINS, PCF50633_INT2_ONKEYF, 0, 0, 0] }

/-- A context captured mid-suspend. -/
def suspState : PcfState :=
  { baseState with suspend_state := PCF50633_SS_COMPLETED_SUSPEND }

/-- A context whose platform data has the charger feature administratively
disabled. -/
def noMbcState : PcfState :=
  { baseState with pdata := { basePdata with used_features := 0 } }

/-- A context with USB present and a negotiated limit recorded. -/
def usbOnState : PcfState :=
  { baseState with flags := PCF50633_F_USB_PRESENT, last_curlim_set := 500 }

/-- An environment whose status block reports only USB removal. -/
def usbremEnv : Env :=
  { tickEnv with pcfirq := [PCF50633_INT1_USBREM, 0, 0, 0, 0] }

/-- A context whose USB current-limit worker snapshot is stale: the
USB-removal counter has advanced past the snapshot taken at notify time. -/
def staleCurlimState : PcfState :=
  { baseState with
    usb_removal_count := 3
    usb_removal_count_usb_curlimit := 2
    pending_curlimit := 500 }

/- Spec-side predicates used to state claims against. -/

/-- Spec-side reading of the suppress condition of claim C7: the only
reason for waking was the power key, i.e. some on-key edge bit is set and
no other bit anywhere in the five status bytes is. -/
def only_onkey_wake (irq : List Nat) : Bool :=
  decide (irq.getD 1 0 &&& (PCF50633_INT2_ONKEYF ||| PCF50633_INT2_ONKEYR) ≠ 0) &&
  decide (irq.getD 0 0 = 0) &&
  decide (irq.getD 1 0 &&& (255 ^^^ (PCF50633_INT2_ONKEYF ||| PCF50633_INT2_ONKEYR)) = 0) &&
  decide (irq.getD 2 0 = 0) &&
  decide (irq.getD 3 0 = 0) &&
  decide (irq.getD 4 0 = 0)

/-- A block write to the five interrupt-mask registers. -/
def isMaskWrite : Eff → Bool
  | Eff.blockWrite r _ => r == PCF50633_REG_INT1M
  | _ => false

/-- Claim C4 as stated: some interrupt-mask write occurs strictly before
the interrupt-disable in the trace. -/
def mask_write_before_irq_off (t : List Eff) : Prop :=
  ∃ i j : Fin t.length, (i : Nat) < (j : Nat) ∧
    isMaskWrite (t.get i) = true ∧ t.get j = Eff.disableIrq

/-- The converse order: the interrupt-disable occurs strictly before some
interrupt-mask write. -/
def irq_off_before_mask_write (t : List Eff) : Prop :=
  ∃ i j : Fin t.length, (i : Nat) < (j : Nat) ∧
    t.get i = Eff.disableIrq ∧ isMaskWrite (t.get j) = true

/-- The gate conditions under which a Dispatcher pass reaches the decode
stage (neither bails nor reschedules): not suspending, either running or
fully resumed, client data present and the 5-byte status read succeeded. -/
def work_decodes (pcf : PcfState) (env : Env) : Prop :=
  pcf.suspend_state ≠ PCF50633_SS_STARTING_SUSPEND ∧
  pcf.suspend_state ≠ PCF50633_SS_COMPLETED_SUSPEND ∧
  (pcf.suspend_state = PCF50633_SS_RUNNING ∨
   pcf.suspend_state = PCF50633_SS_COMPLETED_RESUME) ∧
  env.clientdata_ok = true ∧ env.read_ok = true

/-- The status block reports USB-removed and not USB-inserted. -/
def usbrem_pass (env : Env) : Prop :=
  env.pcfirq.getD 0 0 &&& PCF50633_INT1_USBREM ≠ 0 ∧
  env.pcfirq.getD 0 0 &&& PCF50633_INT1_USBINS = 0

instance (pcf : PcfState) (env : Env) : Decidable (work_decodes pcf env) := by
  unfold work_decodes
  infer_instance

instance (env : Env) : Decidable (usbrem_pass env) := by
  unfold usbrem_pass
  infer_instance

/- Bitwise helper lemmas about the read-modify-write register idiom. -/

/-- 255 is the all-ones byte. -/
lemma testBit_255 (i : Nat) : Nat.testBit 255 i = decide (i < 8) := by
  have h : (255 : Nat) = 2 ^ 8 - 1 := rfl
  rw [h, Nat.testBit_two_pow_sub_one]

/-- Reading back the masked field of a value written by
`pcf50633_reg_set_bit_mask` yields the value that was set (for a byte
mask). -/
lemma and_or_mask_roundtrip (x m v : Nat) (hm : m < 256) :
    (((x &&& 255) &&& (255 ^^^ m)) ||| (v &&& m)) &&& m = v &&& m := by
  apply Nat.eq_of_testBit_eq
  intro i
  simp only [Nat.testBit_and, Nat.testBit_or, Nat.testBit_xor, testBit_255]
  by_cases hi : i < 8
  · rw [decide_eq_true hi]
    cases x.testBit i <;> cases m.testBit i <;> cases v.testBit i <;> rfl
  · have hm8 : m.testBit i = false := by
      refine Nat.testBit_eq_false_of_lt (lt_of_lt_of_le hm ?_)
      exact Nat.pow_le_pow_right (by norm_num : 0 < 2) (Nat.le_of_not_lt hi)
    simp [hm8]

/-- Writing the same masked field twice is idempotent on the register
value. -/
lemma and_or_mask_idem (x m v : Nat) :
    ((((((x &&& 255) &&& (255 ^^^ m)) ||| (v &&& m)) &&& 255) &&& (255 ^^^ m)) |||
        (v &&& m)) =
      ((x &&& 255) &&& (255 ^^^ m)) ||| (v &&& m) := by
  apply Nat.eq_of_testBit_eq
  intro i
  simp only [Nat.testBit_and, Nat.testBit_or, Nat.testBit_xor, testBit_255]
  cases x.testBit i <;> cases m.testBit i <;> cases v.testBit i <;>
    cases h : decide (i < 8) <;> rfl

/-- Setting an already-set flag bit changes nothing. -/
lemma or_or_self (f b : Nat) : (f ||| b) ||| b = f ||| b := by
  apply Nat.eq_of_testBit_eq
  intro i
  simp only [Nat.testBit_or]
  cases f.testBit i <;> cases b.testBit i <;> rfl

/- Register-file projection lemmas for the compound register operations. -/

lemma set_bit_mask_regs_ne (p : PcfState) (reg m v r : Nat) (hr : r ≠ reg) :
    (pcf50633_reg_set_bit_mask p reg m v).1.regs r = p.regs r := by
  dsimp only [pcf50633_reg_set_bit_mask, __reg_write]
  rw [Function.update_noteq hr]

lemma set_bit_mask_regs_self (p : PcfState) (reg m v : Nat) :
    (pcf50633_reg_set_bit_mask p reg m v).1.regs reg =
      (((p.regs reg &&& 255) &&& (255 ^^^ m)) ||| (v &&& m)) := by
  dsimp only [pcf50633_reg_set_bit_mask, __reg_write]
  rw [Function.update_same]

lemma charge_enable_regs_ne (p : PcfState) (a : Int) (r : Nat)
    (hr : r ≠ PCF50633_REG_MBCC1) :
    (pcf50633_charge_enable p a).1.regs r = p.regs r := by
  dsimp only [pcf50633_charge_enable, pcf50633_reg_read, __reg_read]
  split_ifs <;> simp [set_bit_mask_regs_ne _ _ _ _ _ hr]

/-- Explicit state form of `pcf50633_charge_enable` on enable, with the
charger feature present: set the CHG_ENABLED flag and the CHGENA bit of
MBCC1 by read-modify-write. -/
lemma charge_enable_on_eq (p : PcfState)
    (h : p.pdata.used_features &&& PCF50633_FEAT_MBC ≠ 0) :
    (pcf50633_charge_enable p 1).1 =
      { p with
        flags := p.flags ||| PCF50633_F_CHG_ENABLED
        regs := Function.update p.regs PCF50633_REG_MBCC1
          (((p.regs PCF50633_REG_MBCC1 &&& 255) &&&
              (255 ^^^ PCF50633_MBCC1_CHGENA)) |||
            (PCF50633_MBCC1_CHGENA &&& PCF50633_MBCC1_CHGENA)) } := by
  dsimp only [pcf50633_charge_enable, pcf50633_reg_read, __reg_read,
    pcf50633_reg_set_bit_mask, __reg_write]
  rw [if_neg h, if_pos (by norm_num : (1 : Int) ≠ 0)]

/-- The masked field of curlim_bits is itself. -/
lemma curlim_bits_and_mask (ma : Int) :
    curlim_bits ma &&& PCF56033_MBCC7_USB_MASK = curlim_bits ma := by
  unfold curlim_bits
  split_ifs <;> rfl

/- Preservation of the USB-removal counter by every operation other than
   the USBREM decode branch. -/

@[simp] lemma urc_ite (c : Prop) [Decidable c] (a b : PcfState × List Eff) :
    (if c then a else b).1.usb_removal_count =
      if c then a.1.usb_removal_count else b.1.usb_removal_count := by
  split_ifs <;> rfl

@[simp] lemma urc_reg_write (p : PcfState) (r v : Nat) :
    (__reg_write p r v).1.usb_removal_count = p.usb_removal_count := rfl

@[simp] lemma urc_set_bit_mask (p : PcfState) (r m v : Nat) :
    (pcf50633_reg_set_bit_mask p r m v).1.usb_removal_count =
      p.usb_removal_count := rfl

@[simp] lemma urc_clear_bits (p : PcfState) (r v : Nat) :
    (pcf50633_reg_clear_bits p r v).1.usb_removal_count =
      p.usb_removal_count := rfl

@[simp] lemma urc_write_block (p : PcfState) (r : Nat) (vs : List Nat) :
    (pcf50633_write p r vs).1.usb_removal_count = p.usb_removal_count := rfl

@[simp] lemma urc_go_standby (p : PcfState) :
    (pcf50633_go_standby p).1.usb_removal_count = p.usb_removal_count := rfl

@[simp] lemma urc_adc_setup (p : PcfState) (c a : Nat) :
    (async_adc_read_setup p c a).1.usb_removal_count = p.usb_removal_count := rfl

@[simp] lemma urc_trigger (p : PcfState) :
    (trigger_next_adc_job_if_any p).1.usb_removal_count =
      p.usb_removal_count := by
  dsimp only [trigger_next_adc_job_if_any]
  split
  · rfl
  · split <;> rfl

@[simp] lemma urc_add_request (p : PcfState) (req : AdcRequest) :
    (adc_add_request_to_queue p req).1.usb_removal_count =
      p.usb_removal_count := by
  dsimp only [adc_add_request_to_queue]
  split
  · rw [urc_trigger]
  · rfl

@[simp] lemma urc_async_read (p : PcfState) (ok : Bool) (mux avg : Nat)
    (cb : AdcCallback) :
    (pcf50633_adc_async_read p ok mux avg cb).2.1.usb_removal_count =
      p.usb_removal_count := by
  dsimp only [pcf50633_adc_async_read]
  split
  · rfl
  · rw [urc_add_request]

@[simp] lemma urc_charge_enable (p : PcfState) (a : Int) :
    (pcf50633_charge_enable p a).1.usb_removal_count =
      p.usb_removal_count := by
  dsimp only [pcf50633_charge_enable, pcf50633_reg_read, __reg_read]
  split_ifs <;> rfl

@[simp] lemma urc_curlim_set (p : PcfState) (ma : Int) :
    (pcf50633_usb_curlim_set p ma).1.usb_removal_count =
      p.usb_removal_count := by
  dsimp only [pcf50633_usb_curlim_set]
  rw [urc_set_bit_mask, urc_set_bit_mask, urc_set_bit_mask, urc_charge_enable,
    urc_set_bit_mask]

@[simp] lemma urc_configure (p : PcfState) (raw : Int) :
    (configure_pmu_for_charger p raw).1.usb_removal_count =
      p.usb_removal_count := by
  dsimp only [configure_pmu_for_charger, __reg_read, __reg_write]
  split_ifs <;> simp

@[simp] lemma urc_run_cb (p : PcfState) (cb : AdcCallback) (res : Int) :
    (run_adc_callback p cb res).1.usb_removal_count = p.usb_removal_count := by
  cases cb <;> simp [run_adc_callback]

@[simp] lemma urc_resume_check (p : PcfState) (irq : List Nat) :
    (work_resume_check p irq).usb_removal_count = p.usb_removal_count := by
  dsimp only [work_resume_check]
  split_ifs <;> rfl

@[simp] lemma coldplug_done_resume_check (p : PcfState) (irq : List Nat) :
    (work_resume_check p irq).coldplug_done = p.coldplug_done := by
  dsimp only [work_resume_check]
  split_ifs <;> rfl

@[simp] lemma urc_coldplug (p : PcfState) (env : Env) (b : Nat) :
    (work_coldplug p env b).1.usb_removal_count = p.usb_removal_count := by
  dsimp only [work_coldplug, __reg_read]
  split_ifs <;> simp

/-- The possibly SECOND-masked first status byte given to the int1 decode. -/
lemma coldplug_irq0 (p : PcfState) (env : Env) (b : Nat) :
    (work_coldplug p env b).2.2 =
      if p.coldplug_done then b else b &&& (255 ^^^ PCF50633_INT1_SECOND) := by
  dsimp only [work_coldplug, __reg_read]
  split_ifs with h h2 h3 <;> simp

@[simp] lemma urc_work_second (p : PcfState) (env : Env) :
    (work_second p env).1.usb_removal_count = p.usb_removal_count := by
  dsimp only [work_second]
  split_ifs <;> simp

@[simp] lemma urc_int2 (p : PcfState) (b : Nat) :
    (work_int2 p b).1.usb_removal_count = p.usb_removal_count := by
  dsimp only [work_int2]
  split_ifs <;> simp

@[simp] lemma urc_int3_batfull (p : PcfState) (env : Env) (b : Nat) :
    (int3_batfull p env b).1.usb_removal_count = p.usb_removal_count := by
  dsimp only [int3_batfull]
  split_ifs <;> simp

@[simp] lemma urc_int3_thlimon (p : PcfState) (b : Nat) :
    (int3_thlimon p b).1.usb_removal_count = p.usb_removal_count := by
  dsimp only [int3_thlimon]
  split_ifs <;> rfl

@[simp] lemma urc_int3_thlimoff (p : PcfState) (b : Nat) :
    (int3_thlimoff p b).1.usb_removal_count = p.usb_removal_count := by
  dsimp only [int3_thlimoff]
  split_ifs <;> rfl

@[simp] lemma urc_int3_adcrdy (p : PcfState) (b : Nat) :
    (int3_adcrdy p b).1.usb_removal_count = p.usb_removal_count := by
  dsimp only [int3_adcrdy]
  split
  · split <;> simp
  · rfl

@[simp] lemma urc_int3_onkey1s (p : PcfState) (b : Nat) :
    (int3_onkey1s p b).1.usb_removal_count = p.usb_removal_count := by
  dsimp only [int3_onkey1s]
  split_ifs <;> simp

@[simp] lemma urc_int3 (p : PcfState) (env : Env) (b : Nat) :
    (work_int3 p env b).1.usb_removal_count = p.usb_removal_count := by
  dsimp only [work_int3]
  simp only [urc_int3_batfull, urc_int3_thlimon, urc_int3_thlimoff,
    urc_int3_adcrdy, urc_int3_onkey1s]

@[simp] lemma urc_int4_lowbat (p : PcfState) (env : Env) (b : Nat) :
    (int4_lowbat p env b).1.usb_removal_count = p.usb_removal_count := by
  dsimp only [int4_lowbat]
  split_ifs <;> simp

@[simp] lemma urc_int4 (p : PcfState) (env : Env) (b : Nat) :
    (work_int4 p env b).1.usb_removal_count = p.usb_removal_count := by
  dsimp only [work_int4]
  simp only [urc_int4_lowbat]

@[simp] lemma urc_int1_adpins (p : PcfState) (b : Nat) :
    (int1_adpins p b).1.usb_removal_count = p.usb_removal_count := by
  dsimp only [int1_adpins]
  split_ifs <;> rfl

@[simp] lemma urc_int1_adprem (p : PcfState) (b : Nat) :
    (int1_adprem p b).1.usb_removal_count = p.usb_removal_count := by
  dsimp only [int1_adprem]
  split_ifs <;> rfl

@[simp] lemma urc_int1_usbins (p : PcfState) (env : Env) (b : Nat) :
    (int1_usbins p env b).1.usb_removal_count = p.usb_removal_count := by
  dsimp only [int1_usbins]
  split_ifs <;> simp

/-- The USBREM block increments the USB-removal counter by exactly one when
the byte reports USB-removed without USB-inserted, and leaves it unchanged
otherwise. -/
lemma urc_int1_usbrem (p : PcfState) (env : Env) (b : Nat) :
    (int1_usbrem p env b).1.usb_removal_count =
      p.usb_removal_count +
        (if b &&& PCF50633_INT1_USBREM ≠ 0 ∧ b &&& PCF50633_INT1_USBINS = 0
         then 1 else 0) := by
  dsimp only [int1_usbrem]
  split_ifs <;> simp

/-- The int1 decode increments the USB-removal counter by exactly one when
the byte reports USB-removed without USB-inserted, and leaves it unchanged
otherwise. -/
lemma urc_int1 (p : PcfState) (env : Env) (b : Nat) :
    (work_int1 p env b).1.usb_removal_count =
      p.usb_removal_count +
        (if b &&& PCF50633_INT1_USBREM ≠ 0 ∧ b &&& PCF50633_INT1_USBINS = 0
         then 1 else 0) := by
  dsimp only [work_int1]
  simp only [urc_ite, urc_work_second, ite_self, urc_int1_usbrem,
    urc_int1_usbins, urc_int1_adprem, urc_int1_adpins]

/-- Whatever is or-ed with a mask reads back as the full mask under it. -/
lemma or_and_absorb (y m : Nat) : (y ||| m) &&& m = m := by
  apply Nat.eq_of_testBit_eq
  intro i
  simp only [Nat.testBit_and, Nat.testBit_or]
  cases y.testBit i <;> cases m.testBit i <;> rfl

/-- One Dispatcher pass advances the USB-removal counter by exactly one
when it reaches the decode stage with a USB-removed-only status byte, and
leaves it untouched in every other case. -/
lemma urc_work (pcf : PcfState) (env : Env) :
    (pcf50633_work pcf env).1.usb_removal_count =
      if work_decodes pcf env ∧ usbrem_pass env
      then pcf.usb_removal_count + 1 else pcf.usb_removal_count := by
  by_cases h1 : pcf.suspend_state = PCF50633_SS_STARTING_SUSPEND ∨
      pcf.suspend_state = PCF50633_SS_COMPLETED_SUSPEND
  · have hnd : ¬ (work_decodes pcf env ∧ usbrem_pass env) := by
      rintro ⟨⟨hd1, hd2, _⟩, _⟩
      rcases h1 with h | h
      exacts [hd1 h, hd2 h]
    rw [if_neg hnd]
    dsimp only [pcf50633_work]
    rw [if_pos h1]
  · by_cases h2 : pcf.suspend_state ≠ 0 ∧
        pcf.suspend_state ≠ PCF50633_SS_COMPLETED_RESUME
    · have hnd : ¬ (work_decodes pcf env ∧ usbrem_pass env) := by
        rintro ⟨⟨_, _, hor, _⟩, _⟩
        rcases hor with h | h
        exacts [h2.1 h, h2.2 h]
      rw [if_neg hnd]
      dsimp only [pcf50633_work]
      rw [if_neg h1, if_pos h2]
    · by_cases h3 : env.clientdata_ok = false
      · have hnd : ¬ (work_decodes pcf env ∧ usbrem_pass env) := by
          rintro ⟨⟨_, _, _, hc, _⟩, _⟩
          rw [hc] at h3
          cases h3
        rw [if_neg hnd]
        dsimp only [pcf50633_work]
        rw [if_neg h1, if_neg h2, if_pos h3]
      · by_cases h4 : env.read_ok = false
        · have hnd : ¬ (work_decodes pcf env ∧ usbrem_pass env) := by
            rintro ⟨⟨_, _, _, _, hr⟩, _⟩
            rw [hr] at h4
            cases h4
          rw [if_neg hnd]
          dsimp only [pcf50633_work]
          rw [if_neg h1, if_neg h2, if_neg h3, if_pos h4]
        · have hdec : work_decodes pcf env := by
            refine ⟨fun h => h1 (Or.inl h), fun h => h1 (Or.inr h), ?_, ?_, ?_⟩
            · rcases not_and_or.mp h2 with h | h
              · exact Or.inl (not_not.mp h)
              · exact Or.inr (not_not.mp h)
            · cases hcd : env.clientdata_ok
              · exact absurd hcd h3
              · rfl
            · cases hro : env.read_ok
              · exact absurd hro h4
              · rfl
          have hus : (255 ^^^ PCF50633_INT1_SECOND) &&& PCF50633_INT1_USBREM =
              PCF50633_INT1_USBREM := by decide
          have hui : (255 ^^^ PCF50633_INT1_SECOND) &&& PCF50633_INT1_USBINS =
              PCF50633_INT1_USBINS := by decide
          dsimp only [pcf50633_work]
          rw [if_neg h1, if_neg h2, if_neg h3, if_neg h4]
          simp only [urc_int4, urc_int3, urc_int2, urc_int1, urc_coldplug,
            urc_resume_check, coldplug_irq0, coldplug_done_resume_check]
          rw [if_congr (and_iff_right hdec) rfl rfl]
          dsimp only [usbrem_pass]
          by_cases hc : pcf.coldplug_done
          · rw [if_pos hc]
            split_ifs <;> omega
          · rw [if_neg hc, Nat.and_assoc, Nat.and_assoc, hus, hui]
            split_ifs <;> omega

/-- Claim C1 counterexample: with the FIFO full (head 7, tail 0, depth 8),
`pcf50633_adc_async_read` returns 0 (success, not a QueueFull error) and
the push happens anyway: head advances onto tail, so the FIFO is changed
and now looks empty. -/
theorem adc_enqueue_full_cex :
    ((fullQueueState.adc_queue_head + 1) &&& (MAX_ADC_FIFO_DEPTH - 1) =
        fullQueueState.adc_queue_tail) ∧
    (pcf50633_adc_async_read fullQueueState true PCF50633_ADCC1_MUX_ADCIN1
        PCF50633_ADCC1_AVERAGE_16 (AdcCallback.external 9)).1 = 0 ∧
    (pcf50633_adc_async_read fullQueueState true PCF50633_ADCC1_MUX_ADCIN1
        PCF50633_ADCC1_AVERAGE_16
        (AdcCallback.external 9)).2.1.adc_queue_head =
      fullQueueState.adc_queue_tail ∧
    (pcf50633_adc_async_read fullQueueState true PCF50633_ADCC1_MUX_ADCIN1
        PCF50633_ADCC1_AVERAGE_16
        (AdcCallback.external 9)).2.1.adc_queue_head ≠
      fullQueueState.adc_queue_head := by
  decide

/-- Claim C1 as amended: `adc_add_request_to_queue` performs no capacity
check and reports no QueueFull error.  Even when the FIFO is full it stores
the request at head and advances head modulo the depth, so head wraps onto
tail and the full queue becomes indistinguishable from an empty one
(pending requests are stranded); the only error the async read path can
return is -ENOMEM from allocation. -/
theorem adc_add_request_never_queue_full (pcf : PcfState) (req : AdcRequest)
    (hfull : (pcf.adc_queue_head + 1) &&& (MAX_ADC_FIFO_DEPTH - 1) =
      pcf.adc_queue_tail) :
    (adc_add_request_to_queue pcf req).1.adc_queue_head = pcf.adc_queue_tail ∧
    (adc_add_request_to_queue pcf req).1.adc_queue pcf.adc_queue_head =
      some req ∧
    ∀ mux avg cb,
      (pcf50633_adc_async_read pcf true mux avg cb).1 = 0 ∧
      (pcf50633_adc_async_read pcf false mux avg cb).1 = -ENOMEM := by
  have hhead : ∀ (p : PcfState) (r : AdcRequest),
      (adc_add_request_to_queue p r).1.adc_queue_head =
        (p.adc_queue_head + 1) &&& (MAX_ADC_FIFO_DEPTH - 1) := by
    intro p r
    dsimp only [adc_add_request_to_queue, trigger_next_adc_job_if_any,
      async_adc_read_setup, __reg_write]
    split
    · split
      · rfl
      · split <;> rfl
    · rfl
  have hqueue : ∀ (p : PcfState) (r : AdcRequest),
      (adc_add_request_to_queue p r).1.adc_queue =
        Function.update p.adc_queue p.adc_queue_head (some r) := by
    intro p r
    dsimp only [adc_add_request_to_queue, trigger_next_adc_job_if_any,
      async_adc_read_setup, __reg_write]
    split
    · split
      · rfl
      · split <;> rfl
    · rfl
  refine ⟨by rw [hhead, hfull], by rw [hqueue, Function.update_same],
    fun mux avg cb => ⟨rfl, rfl⟩⟩

/-- Claim C1 amended witness at the concrete full FIFO. -/
theorem adc_add_request_never_queue_full_w :
    ((fullQueueState.adc_queue_head + 1) &&& (MAX_ADC_FIFO_DEPTH - 1) =
        fullQueueState.adc_queue_tail) ∧
    (adc_add_request_to_queue fullQueueState reqA).1.adc_queue_head =
      fullQueueState.adc_queue_tail :=
  ⟨by decide, (adc_add_request_never_queue_full fullQueueState reqA (by decide)).1⟩

/-- Claim C3: whenever the suspend state is starting-suspend or
completed-suspend, a Dispatcher pass bails before any register access, so
its trace contains zero register-transport calls. -/
theorem work_suspended_no_reg_access (pcf : PcfState) (env : Env)
    (h : pcf.suspend_state = PCF50633_SS_STARTING_SUSPEND ∨
         pcf.suspend_state = PCF50633_SS_COMPLETED_SUSPEND) :
    regAccesses (pcf50633_work pcf env).2 = [] := by
  have htr : (pcf50633_work pcf env).2 = [Eff.inputSync] := by
    dsimp only [pcf50633_work]
    rw [if_pos h]
  rw [htr]
  rfl

/-- Claim C3 witness: the bail at completed-suspend, concretely. -/
theorem work_suspended_no_reg_access_w :
    (suspState.suspend_state = PCF50633_SS_STARTING_SUSPEND ∨
     suspState.suspend_state = PCF50633_SS_COMPLETED_SUSPEND) ∧
    regAccesses (pcf50633_work suspState tickEnv).2 = [] :=
  ⟨Or.inr (by decide),
   work_suspended_no_reg_access suspState tickEnv (Or.inr (by decide))⟩

/-- Claim C5: `interpret_charger_type_from_adc` is a pure function of the
sample and the USB-presence flag: strictly below the midpoint of the
detect-none and detect-1A levels it yields the 1A charger type regardless
of the flag; at or above the midpoint it yields host/limited USB when the
flag is set and no-charger otherwise. -/
theorem interpret_charger_type_table (pcf : PcfState) (sample : Int) :
    (sample < (ADC_NOM_CHG_DETECT_NONE + ADC_NOM_CHG_DETECT_1A) / 2 →
      interpret_charger_type_from_adc pcf sample = CHARGER_TYPE_1A) ∧
    ((ADC_NOM_CHG_DETECT_NONE + ADC_NOM_CHG_DETECT_1A) / 2 ≤ sample →
      interpret_charger_type_from_adc pcf sample =
        if pcf.flags &&& PCF50633_F_USB_PRESENT ≠ 0 then CHARGER_TYPE_HOSTUSB
        else CHARGER_TYPE_NONE) := by
  constructor
  · intro h
    simp only [interpret_charger_type_from_adc, if_pos h]
  · intro h
    simp only [interpret_charger_type_from_adc, if_neg (not_lt.mpr h)]

/-- Claim C5 witness: a low sample classifies as 1A even with USB present,
and a high sample with no USB classifies as no-charger. -/
theorem interpret_charger_type_table_w :
    ((3 : Int) < (ADC_NOM_CHG_DETECT_NONE + ADC_NOM_CHG_DETECT_1A) / 2) ∧
    interpret_charger_type_from_adc usbOnState 3 = CHARGER_TYPE_1A ∧
    ((ADC_NOM_CHG_DETECT_NONE + ADC_NOM_CHG_DETECT_1A) / 2 ≤ (30 : Int)) ∧
    interpret_charger_type_from_adc baseState 30 = CHARGER_TYPE_NONE :=
  ⟨by decide, (interpret_charger_type_table usbOnState 3).1 (by decide),
   by decide,
   by rw [(interpret_charger_type_table baseState 30).2 (by decide)]; decide⟩

/-- Claim C6: `pcf50633_usb_curlim_set` quantizes the requested current
down, never up, to the tiers suspend/100/500/1000, and the masked USB
field of MBCC7 afterwards holds exactly the selected tier; 750 mA lands on
the 500 mA tier and 50 mA on the suspend tier. -/
theorem usb_curlim_quantizes_down (pcf : PcfState) (ma : Int) :
    (1000 ≤ ma → curlim_bits ma = PCF50633_MBCC7_USB_1000mA) ∧
    (500 ≤ ma → ma < 1000 → curlim_bits ma = PCF50633_MBCC7_USB_500mA) ∧
    (100 ≤ ma → ma < 500 → curlim_bits ma = PCF50633_MBCC7_USB_100mA) ∧
    (ma < 100 → curlim_bits ma = PCF50633_MBCC7_USB_SUSPEND) ∧
    curlim_bits 750 = PCF50633_MBCC7_USB_500mA ∧
    curlim_bits 50 = PCF50633_MBCC7_USB_SUSPEND ∧
    ((pcf50633_usb_curlim_set pcf ma).1.regs PCF50633_REG_MBCC7) &&&
        PCF56033_MBCC7_USB_MASK = curlim_bits ma := by
  refine ⟨?_, ?_, ?_, ?_, by decide, by decide, ?_⟩
  · intro h
    simp only [curlim_bits, if_pos (le_iff_lt_or_eq.mp h).symm]
    rw [if_pos h]
  · intro h5 h10
    unfold curlim_bits
    rw [if_neg (not_le.mpr h10), if_pos h5]
  · intro h1 h5
    unfold curlim_bits
    rw [if_neg (not_le.mpr (lt_of_lt_of_le h5 (by norm_num))),
      if_neg (not_le.mpr h5), if_pos h1]
  · intro h
    unfold curlim_bits
    rw [if_neg (not_le.mpr (lt_of_lt_of_le h (by norm_num))),
      if_neg (not_le.mpr (lt_of_lt_of_le h (by norm_num))),
      if_neg (not_le.mpr h)]
  · dsimp only [pcf50633_usb_curlim_set]
    rw [set_bit_mask_regs_ne _ _ _ _ _ (by decide),
      set_bit_mask_regs_ne _ _ _ _ _ (by decide),
      set_bit_mask_regs_ne _ _ _ _ _ (by decide),
      charge_enable_regs_ne _ _ _ (by decide),
      set_bit_mask_regs_self,
      and_or_mask_roundtrip _ _ _ (by decide),
      curlim_bits_and_mask]

/-- Claim C6 witness: the tier table at 1000, 750, 100 and 50 mA, and the
MBCC7 field after a concrete call. -/
theorem usb_curlim_quantizes_down_w :
    ((1000 : Int) ≤ 1000) ∧ curlim_bits 1000 = PCF50633_MBCC7_USB_1000mA ∧
    ((500 : Int) ≤ 750) ∧ ((750 : Int) < 1000) ∧
    curlim_bits 750 = PCF50633_MBCC7_USB_500mA ∧
    ((50 : Int) < 100) ∧ curlim_bits 50 = PCF50633_MBCC7_USB_SUSPEND ∧
    ((pcf50633_usb_curlim_set baseState 750).1.regs PCF50633_REG_MBCC7) &&&
        PCF56033_MBCC7_USB_MASK = curlim_bits 750 :=
  ⟨by decide, (usb_curlim_quantizes_down baseState 1000).1 (by decide),
   by decide, by decide,
   (usb_curlim_quantizes_down baseState 750).2.1 (by decide) (by decide),
   by decide,
   (usb_curlim_quantizes_down baseState 50).2.2.2.1 (by decide),
   (usb_curlim_quantizes_down baseState 750).2.2.2.2.2.2⟩

/-- Claim C10: the public single-register read truncates the raw transport
return to its low byte, so a negative bus error code comes back as a value
in 0..255 that collides with a legitimate register value: callers cannot
distinguish the two. -/
theorem reg_read_truncates_bus_errors (e : Int) (h : e < 0) :
    pcf50633_reg_read_of_transport e < 256 ∧
    ∃ v : Int, 0 ≤ v ∧ v < 256 ∧
      pcf50633_reg_read_of_transport v = pcf50633_reg_read_of_transport e := by
  refine ⟨?_, e % 256, ?_, ?_, ?_⟩ <;>
    first
      | omega
      | (simp only [pcf50633_reg_read_of_transport]; omega)

/-- Claim C10 witness: the error code -5 returns as the byte 251. -/
theorem reg_read_truncates_bus_errors_w :
    ((-5 : Int) < 0) ∧
    (pcf50633_reg_read_of_transport (-5) < 256 ∧
     ∃ v : Int, 0 ≤ v ∧ v < 256 ∧
       pcf50633_reg_read_of_transport v = pcf50633_reg_read_of_transport (-5)) :=
  ⟨by decide, reg_read_truncates_bus_errors (-5) (by decide)⟩

/-- Claim C4 counterexample: on a concrete suspend entry the trace is
exactly interrupt-disable followed by the mask block write: no mask write
occurs before the interrupt-disable, the order the claim states. -/
theorem suspend_mask_after_disable_cex :
    (pcf50633_suspend baseState true).1 = 0 ∧
    ¬ mask_write_before_irq_off (pcf50633_suspend baseState true).2.2 ∧
    irq_off_before_mask_write (pcf50633_suspend baseState true).2.2 :=
  ⟨by decide, by unfold mask_write_before_irq_off; decide,
   by unfold irq_off_before_mask_write; decide⟩

/-- Claim C4 as amended: on suspend entry the coordinator first disables
interrupt delivery at the source, and then reprograms the five
interrupt-mask registers so that only the configured resumers bit-set
remains unmasked: the disable comes first, then the mask write. -/
theorem suspend_disables_irq_then_masks (pcf : PcfState)
    (h : pcf.suspend_state = PCF50633_SS_RUNNING) :
    (pcf50633_suspend pcf true).2.2 =
      [Eff.disableIrq,
       Eff.blockWrite PCF50633_REG_INT1M
         (pcf.pdata.resumers.map (fun r => 255 ^^^ (r &&& 255)))] ∧
    (pcf50633_suspend pcf true).2.1.suspend_state =
      PCF50633_SS_COMPLETED_SUSPEND ∧
    (pcf50633_suspend pcf true).1 = 0 := by
  dsimp only [pcf50633_suspend, pcf50633_write]
  rw [if_neg (by simp [h])]
  exact ⟨rfl, rfl, rfl⟩

/-- Claim C4 amended witness at a concrete running context. -/
theorem suspend_disables_irq_then_masks_w :
    baseState.suspend_state = PCF50633_SS_RUNNING ∧
    (pcf50633_suspend baseState true).2.2 =
      [Eff.disableIrq,
       Eff.blockWrite PCF50633_REG_INT1M
         (baseState.pdata.resumers.map (fun r => 255 ^^^ (r &&& 255)))] :=
  ⟨by decide, (suspend_disables_irq_then_masks baseState (by decide)).1⟩

/-- Claim C7 counterexample: a first post-resume pass whose status block
reports USBINS together with an on-key edge still sets the suppress flag,
although the power key is not the only wake reason. -/
theorem suppress_despite_other_wake_cex :
    resumeWakeState.suspend_state ≠ PCF50633_SS_RUNNING ∧
    only_onkey_wake resumeWakeEnv.pcfirq = false ∧
    (pcf50633_work resumeWakeState resumeWakeEnv).1.suppress_onkey_events =
      true := by
  decide

/-- Claim C7 as amended: on the first successful status read after a
resume, the suppress flag is set if and only if an on-key edge bit is
present in the second status byte, regardless of what other wake reasons
are present; the pass also snapshots the block and transitions the suspend
state to running. -/
theorem resume_check_suppress_iff_onkey_bit (pcf : PcfState) (irq : List Nat)
    (h : pcf.suspend_state ≠ PCF50633_SS_RUNNING) :
    ((work_resume_check pcf irq).suppress_onkey_events = true ↔
      irq.getD 1 0 &&& (PCF50633_INT2_ONKEYF ||| PCF50633_INT2_ONKEYR) ≠ 0) ∧
    (work_resume_check pcf irq).suspend_state = PCF50633_SS_RUNNING ∧
    (work_resume_check pcf irq).pcfirq_resume = irq.take 5 := by
  dsimp only [work_resume_check]
  rw [if_pos h]
  split_ifs with h2
  · exact ⟨⟨fun _ => h2, fun _ => rfl⟩, rfl, rfl⟩
  · exact ⟨⟨fun hf => hf.elim, fun hc => absurd hc h2⟩, rfl, rfl⟩

/-- Claim C7 amended witness at the concrete wake-by-USBINS-and-onkey
status block. -/
theorem resume_check_suppress_iff_onkey_bit_w :
    resumeWakeState.suspend_state ≠ PCF50633_SS_RUNNING ∧
    ((work_resume_check resumeWakeState
        resumeWakeEnv.pcfirq).suppress_onkey_events = true ↔
      resumeWakeEnv.pcfirq.getD 1 0 &&&
        (PCF50633_INT2_ONKEYF ||| PCF50633_INT2_ONKEYR) ≠ 0) :=
  ⟨by decide,
   (resume_check_suppress_iff_onkey_bit resumeWakeState resumeWakeEnv.pcfirq
     (by decide)).1⟩

/-- Claim C9: `pcf50633_charge_enable` is idempotent on state: enabling
twice leaves the same register contents and the same flag set as enabling
once; and with the charger feature administratively disabled it is a
complete no-op: state unchanged and no effect emitted. -/
theorem charge_enable_idem (pcf : PcfState) :
    (∀ r, (pcf50633_charge_enable (pcf50633_charge_enable pcf 1).1 1).1.regs r
        = (pcf50633_charge_enable pcf 1).1.regs r) ∧
    (pcf50633_charge_enable (pcf50633_charge_enable pcf 1).1 1).1.flags =
      (pcf50633_charge_enable pcf 1).1.flags ∧
    (pcf.pdata.used_features &&& PCF50633_FEAT_MBC = 0 →
      ∀ a : Int, pcf50633_charge_enable pcf a = (pcf, [])) := by
  by_cases hm : pcf.pdata.used_features &&& PCF50633_FEAT_MBC = 0
  · have hid : pcf50633_charge_enable pcf 1 = (pcf, []) := by
      dsimp only [pcf50633_charge_enable]
      rw [if_pos hm]
    have hid2 : (pcf50633_charge_enable pcf 1).1 = pcf := by rw [hid]
    refine ⟨?_, ?_, ?_⟩
    · intro r
      rw [hid2, hid2]
    · rw [hid2, hid2]
    · intro _ a
      dsimp only [pcf50633_charge_enable]
      rw [if_pos hm]
  · have h1 := charge_enable_on_eq pcf hm
    have hm2 : (pcf50633_charge_enable pcf 1).1.pdata.used_features &&&
        PCF50633_FEAT_MBC ≠ 0 := by
      rw [h1]
      exact hm
    have h2 := charge_enable_on_eq (pcf50633_charge_enable pcf 1).1 hm2
    refine ⟨?_, ?_, fun hc => absurd hc hm⟩
    · intro r
      by_cases hr : r = PCF50633_REG_MBCC1
      · subst hr
        rw [h2, h1]
        dsimp only
        simp only [Function.update_same]
        exact and_or_mask_idem _ _ _
      · rw [h2]
        dsimp only
        rw [Function.update_noteq hr]
    · rw [h2, h1]
      dsimp only
      rw [or_or_self]

/-- Claim C9 witness: the administratively-disabled no-op at a concrete
context. -/
theorem charge_enable_idem_w :
    (noMbcState.pdata.used_features &&& PCF50633_FEAT_MBC = 0) ∧
    pcf50633_charge_enable noMbcState 1 = (noMbcState, []) :=
  ⟨by decide, (charge_enable_idem noMbcState).2.2 (by decide) 1⟩

/-- Claim C2 counterexample: with sig-init threshold 2 and shutdown
threshold 3, one on-key press whose held-seconds counter starts at 0 and is
held across 4 SECOND ticks issues the init signal 3 times and the hardware
standby command 2 times: once per tick at or past each threshold, not
exactly once per press. -/
theorem onkey_thresholds_fire_every_tick_cex :
    heldState.pdata.onkey_seconds_sig_init = 2 ∧
    heldState.pdata.onkey_seconds_shutdown = 3 ∧
    heldState.onkey_seconds = 0 ∧
    countKillInit tick4.2 = 3 ∧
    countStandby tick4.2 = 2 := by
  decide

/-- Claim C2 as amended: while the on-key is held, every SECOND tick whose
incremented counter is at or past the sig-init threshold issues the signal
to init (once per such tick, with no once-per-press guard), and every tick
whose counter is at or past the shutdown threshold issues the hardware
standby command. -/
theorem work_second_fires_per_tick (pcf : PcfState) (env : Env)
    (h0 : 0 ≤ pcf.onkey_seconds)
    (hp : pcf.flags &&& PCF50633_F_PWR_PRESSED ≠ 0)
    (hi : env.init_exists = true) :
    countKillInit (work_second pcf env).2 =
      (if pcf.onkey_seconds + 1 ≥ pcf.pdata.onkey_seconds_sig_init then 1
       else 0) ∧
    countStandby (work_second pcf env).2 =
      (if pcf.onkey_seconds + 1 ≥ pcf.pdata.onkey_seconds_shutdown then 1
       else 0) ∧
    (work_second pcf env).1.onkey_seconds = pcf.onkey_seconds + 1 := by
  dsimp only [work_second, pcf50633_go_standby, pcf50633_reg_set_bit_mask,
    __reg_write]
  rw [if_pos ⟨h0, hp⟩]
  simp only [hi]
  split_ifs <;>
    simp [countKillInit, countStandby, List.countP_append, List.countP_cons,
      List.countP_nil, isKillInit, isStandbyWrite, or_and_absorb,
      PCF50633_OOCSHDWN_GOSTDBY]

/-- Claim C2 amended witness: the first tick of a fresh press at the
concrete thresholds. -/
theorem work_second_fires_per_tick_w :
    (0 ≤ heldState.onkey_seconds) ∧
    (heldState.flags &&& PCF50633_F_PWR_PRESSED ≠ 0) ∧
    tickEnv.init_exists = true ∧
    countKillInit (work_second heldState tickEnv).2 =
      (if heldState.onkey_seconds + 1 ≥ heldState.pdata.onkey_seconds_sig_init
       then 1 else 0) :=
  ⟨by decide, by decide, by decide,
   (work_second_fires_per_tick heldState tickEnv (by decide) (by decide)
     (by decide)).1⟩

/-- Claim C8: in one Dispatcher pass the USB-removal counter is incremented
by exactly 1 when the pass decodes a status byte with USB-removed set and
USB-inserted clear, and is unchanged by everything else, so it is
monotonically non-decreasing; and the USB current-limit worker, when its
snapshot of the counter is stale, bails without touching any state and
without emitting any effect (in particular it does not apply its pending
current limit). -/
theorem usb_removal_count_step (pcf : PcfState) (env : Env) :
    pcf.usb_removal_count ≤ (pcf50633_work pcf env).1.usb_removal_count ∧
    (work_decodes pcf env → usbrem_pass env →
      (pcf50633_work pcf env).1.usb_removal_count =
        pcf.usb_removal_count + 1) ∧
    (work_decodes pcf env → ¬ usbrem_pass env →
      (pcf50633_work pcf env).1.usb_removal_count = pcf.usb_removal_count) ∧
    (¬ work_decodes pcf env →
      (pcf50633_work pcf env).1.usb_removal_count = pcf.usb_removal_count) ∧
    (pcf.suspend_state = PCF50633_SS_RUNNING → pcf.probe_completed = true →
      pcf.usb_removal_count_usb_curlimit ≠ pcf.usb_removal_count →
      pcf50633_work_usbcurlim pcf = (pcf, [])) := by
  have hm := urc_work pcf env
  refine ⟨?_, ?_, ?_, ?_, ?_⟩
  · rw [hm]
    split_ifs <;> omega
  · intro hd hu
    rw [hm, if_pos ⟨hd, hu⟩]
  · intro hd hnu
    rw [hm, if_neg (fun hx => hnu hx.2)]
  · intro hnd
    rw [hm, if_neg (fun hx => hnd hx.1)]
  · intro hrun hprobe hne
    dsimp only [pcf50633_work_usbcurlim]
    rw [if_neg (by simp [hrun, PCF50633_SS_RUNNING, PCF50633_SS_STARTING_SUSPEND,
          PCF50633_SS_COMPLETED_SUSPEND]),
      if_neg (by simp [hprobe]),
      if_neg (by simp [hrun, PCF50633_SS_RUNNING]),
      if_pos hne]

/-- Claim C8 witness: a concrete USB-removed-only pass increments the
counter from 0 to 1, and the worker with a stale snapshot is a no-op. -/
theorem usb_removal_count_step_w :
    work_decodes baseState usbremEnv ∧ usbrem_pass usbremEnv ∧
    (pcf50633_work baseState usbremEnv).1.usb_removal_count =
      baseState.usb_removal_count + 1 ∧
    (staleCurlimState.usb_removal_count_usb_curlimit ≠
      staleCurlimState.usb_removal_count) ∧
    pcf50633_work_usbcurlim staleCurlimState = (staleCurlimState, []) :=
  ⟨by decide, by decide,
   (usb_removal_count_step baseState usbremEnv).2.1 (by decide) (by decide),
   by decide,
   (usb_removal_count_step staleCurlimState usbremEnv).2.2.2.2 (by decide)
     (by decide) (by decide)⟩

end Pcf50633
